import Mathlib

/-!
Shallow embedding of the backend-configuration orchestrator of the repository
(component `BackendConfigurationPanel` in `src/i18n/index.ts`), together with
theorems settling the frozen claims about it.

React `useState` variables become fields of `PanelState`; each async handler
becomes a function from a remote-result environment and a state to a
`HandlerOut` record carrying the successor state, the list of remote calls it
issued (in order), the sequence of statuses it set synchronously on its own
code path, and the `setTimeout` updates it scheduled (delay in ms, status).
The UI buttons' `disabled` attributes become the dispatch gate `intentDisabled`.
-/

namespace Clara

/-- JSON document tree, modelling the untyped `configuration` value.  Numbers
are modelled as integers, which covers every document the claims exercise;
object fields keep insertion order, as JavaScript objects do. -/
inductive Json where
  | null
  | bool (b : Bool)
  | num (n : Int)
  | str (s : String)
  | arr (items : List Json)
  | obj (fields : List (String × Json))

/-- Opening brace character. -/
def objOpen : Char := Char.ofNat 123

/-- Closing brace character. -/
def objClose : Char := Char.ofNat 125

/-- Lower-case hexadecimal digit, as used by `JSON.stringify` escapes. -/
def hexDigit (n : Nat) : Char :=
  if n < 10 then Char.ofNat (48 + n) else Char.ofNat (87 + n % 16)

/-- Escaping of one character inside a JSON string literal, mirroring
`JSON.stringify`. -/
def escapeChar (c : Char) : String :=
  if c = '"' then "\\\""
  else if c = '\\' then "\\\\"
  else if c = '\x08' then "\\b"
  else if c = '\x09' then "\\t"
  else if c = '\x0a' then "\\n"
  else if c = '\x0c' then "\\f"
  else if c = '\x0d' then "\\r"
  else if c.toNat < 32 then
    "\\u00" ++ String.singleton (hexDigit (c.toNat / 16)) ++
      String.singleton (hexDigit (c.toNat % 16))
  else String.singleton c

/-- JSON string literal with quotes, mirroring `JSON.stringify` on strings. -/
def quoteString (s : String) : String :=
  "\"" ++ String.join (s.data.map escapeChar) ++ "\""

/-- Two-space indentation prefix at nesting depth `n`. -/
def indentStr (n : Nat) : String := String.join (List.replicate n "  ")

mutual

/-- Pretty-printer mirroring `JSON.stringify(value, null, 2)` at depth `d`:
two-space indentation, `": "` after keys, one item per line. -/
def stringifyAt : Nat → Json → String
  | _, Json.null => "null"
  | _, Json.bool b => if b then "true" else "false"
  | _, Json.num n => toString n
  | _, Json.str s => quoteString s
  | d, Json.arr items =>
    match items with
    | [] => "[]"
    | _ =>
      "[\n" ++ String.intercalate ",\n" (stringifyArrItems (d + 1) items) ++
        "\n" ++ indentStr d ++ "]"
  | d, Json.obj fields =>
    match fields with
    | [] => "\x7b\x7d"
    | _ =>
      "\x7b\n" ++ String.intercalate ",\n" (stringifyObjFields (d + 1) fields) ++
        "\n" ++ indentStr d ++ "\x7d"

/-- Rendered array items at depth `d`, one string per item. -/
def stringifyArrItems : Nat → List Json → List String
  | _, [] => []
  | d, j :: rest => (indentStr d ++ stringifyAt d j) :: stringifyArrItems d rest

/-- Rendered object fields at depth `d`, one string per field. -/
def stringifyObjFields : Nat → List (String × Json) → List String
  | _, [] => []
  | d, (k, v) :: rest =>
    (indentStr d ++ quoteString k ++ ": " ++ stringifyAt d v) ::
      stringifyObjFields d rest

end

/-- The serialization used throughout the source:
`JSON.stringify(configuration, null, 2)`. -/
def stringify2 (j : Json) : String := stringifyAt 0 j

mutual

/-- Compact printer mirroring `JSON.stringify(value)` with no spacing.  It is
a second serialization of the same document tree, used to exhibit a
re-serialization of a document that differs from `stringify2` only in
formatting. -/
def stringifyCompactAt : Json → String
  | Json.null => "null"
  | Json.bool b => if b then "true" else "false"
  | Json.num n => toString n
  | Json.str s => quoteString s
  | Json.arr items =>
    "[" ++ String.intercalate "," (stringifyCompactItems items) ++ "]"
  | Json.obj fields =>
    "\x7b" ++ String.intercalate "," (stringifyCompactFields fields) ++ "\x7d"

/-- Compactly rendered array items. -/
def stringifyCompactItems : List Json → List String
  | [] => []
  | j :: rest => stringifyCompactAt j :: stringifyCompactItems rest

/-- Compactly rendered object fields. -/
def stringifyCompactFields : List (String × Json) → List String
  | [] => []
  | (k, v) :: rest =>
    (quoteString k ++ ":" ++ stringifyCompactAt v) :: stringifyCompactFields rest

end

/-- Compact serialization of a document (no indentation). -/
def stringifyCompact (j : Json) : String := stringifyCompactAt j

/-- JSON whitespace characters. -/
def isWs (c : Char) : Bool :=
  c = ' ' || c = '\x09' || c = '\x0a' || c = '\x0d'

/-- Skip leading JSON whitespace. -/
def skipWs : List Char → List Char
  | [] => []
  | c :: cs => if isWs c then skipWs cs else c :: cs

/-- Hexadecimal digit test for `\u` escapes. -/
def isHexChar (c : Char) : Bool :=
  c.isDigit || (97 ≤ c.toNat && c.toNat ≤ 102) || (65 ≤ c.toNat && c.toNat ≤ 70)

/-- Recognize the remainder of a JSON string literal (after the opening
quote), returning the input after the closing quote.  `fuel` bounds the
recursion; callers pass the input length plus one, which each step's
consumption of at least one character makes sufficient. -/
def parseStringRest : Nat → List Char → Option (List Char)
  | 0, _ => none
  | _ + 1, [] => none
  | f + 1, c :: cs =>
    if c = '"' then some cs
    else if c = '\\' then
      match cs with
      | [] => none
      | e :: cs2 =>
        if e = '"' || e = '\\' || e = '/' || e = 'b' || e = 'f' || e = 'n' ||
            e = 'r' || e = 't' then
          parseStringRest f cs2
        else if e = 'u' then
          match cs2 with
          | h1 :: h2 :: h3 :: h4 :: cs3 =>
            if isHexChar h1 && isHexChar h2 && isHexChar h3 && isHexChar h4 then
              parseStringRest f cs3
            else none
          | _ => none
        else none
    else if c.toNat < 32 then none
    else parseStringRest f cs

/-- Expect a literal character sequence. -/
def expectLit : List Char → List Char → Option (List Char)
  | [], cs => some cs
  | _ :: _, [] => none
  | p :: ps, c :: cs => if c = p then expectLit ps cs else none

/-- Recognize the optional fraction and exponent of a JSON number. -/
def parseExpPart (cs : List Char) : Option (List Char) :=
  match cs with
  | [] => some []
  | e :: r =>
    if e = 'e' || e = 'E' then
      let r2 := match r with
                | s :: r' => if s = '+' || s = '-' then r' else r
                | [] => r
      let sp := r2.span (fun c => c.isDigit)
      if sp.1.isEmpty then none else some sp.2
    else some cs

/-- Recognize the fraction-then-exponent tail of a JSON number. -/
def parseFracExp (cs : List Char) : Option (List Char) :=
  match cs with
  | '.' :: r =>
    let sp := r.span (fun c => c.isDigit)
    if sp.1.isEmpty then none else parseExpPart sp.2
  | _ => parseExpPart cs

/-- Recognize a JSON number. -/
def parseNumber (cs : List Char) : Option (List Char) :=
  let cs1 := match cs with
             | '-' :: r => r
             | _ => cs
  match cs1 with
  | [] => none
  | '0' :: r => parseFracExp r
  | c :: _ => if c.isDigit then parseFracExp (cs1.dropWhile (fun d => d.isDigit))
              else none

mutual

/-- Recognize one JSON value, mirroring the grammar accepted by `JSON.parse`.
`fuel` bounds nesting; `jsonValid` passes a fuel larger than the input. -/
def parseValue : Nat → List Char → Option (List Char)
  | 0, _ => none
  | f + 1, cs =>
    match cs with
    | [] => none
    | c :: rest =>
      if c = '"' then parseStringRest (rest.length + 1) rest
      else if c = objOpen then
        match skipWs rest with
        | [] => none
        | c2 :: r2 => if c2 = objClose then some r2 else parseMembers f (c2 :: r2)
      else if c = '[' then
        match skipWs rest with
        | [] => none
        | c2 :: r2 => if c2 = ']' then some r2 else parseElements f (c2 :: r2)
      else if c = 't' then expectLit ['r', 'u', 'e'] rest
      else if c = 'f' then expectLit ['a', 'l', 's', 'e'] rest
      else if c = 'n' then expectLit ['u', 'l', 'l'] rest
      else parseNumber cs

/-- Recognize object members `"key": value (, ...)*` up to and including the
closing brace. -/
def parseMembers : Nat → List Char → Option (List Char)
  | 0, _ => none
  | f + 1, cs =>
    match cs with
    | [] => none
    | c :: rest =>
      if c = '"' then
        match parseStringRest (rest.length + 1) rest with
        | none => none
        | some r1 =>
          match skipWs r1 with
          | ':' :: r3 =>
            match parseValue f (skipWs r3) with
            | none => none
            | some r4 =>
              match skipWs r4 with
              | [] => none
              | c2 :: r6 =>
                if c2 = ',' then parseMembers f (skipWs r6)
                else if c2 = objClose then some r6
                else none
          | _ => none
      else none

/-- Recognize array elements `value (, value)*` up to and including the
closing bracket. -/
def parseElements : Nat → List Char → Option (List Char)
  | 0, _ => none
  | f + 1, cs =>
    match parseValue f cs with
    | none => none
    | some r1 =>
      match skipWs r1 with
      | [] => none
      | c :: r3 =>
        if c = ',' then parseElements f (skipWs r3)
        else if c = ']' then some r3
        else none

end

/-- Whether `JSON.parse(s)` succeeds: one JSON value surrounded only by
whitespace. -/
def jsonValid (s : String) : Bool :=
  match parseValue (2 * s.length + 2) (skipWs s.data) with
  | some rest => (skipWs rest).isEmpty
  | none => false

/-- `model.status` values of the `ModelConfig` interface. -/
inductive ModelStatus where
  | available
  | running
  | error
deriving DecidableEq

/-- The `ModelConfig` interface; `?` fields become `Option`. -/
structure ModelConfig where
  name : String
  path : String
  port : Int
  isEmbedding : Bool
  nativeContextSize : Option Int := none
  configuredContextSize : Option Int := none
  gpuLayers : Option Int := none
  batchSize : Option Int := none
  ubatchSize : Option Int := none
  threads : Option Int := none
  flashAttention : Option Bool := none
  memoryLock : Option Bool := none
  ttl : Option Int := none
  status : ModelStatus
deriving DecidableEq

/-- The `Backend` interface. -/
structure Backend where
  id : String
  name : String
  description : String
  folder : String
  requiresGPU : Bool
  gpuType : String
  isAvailable : Bool
  binaryPath : Option String := none
deriving DecidableEq

/-- The `BackendOverride` interface. -/
structure BackendOverride where
  backendId : Option String
  isOverridden : Bool
  timestamp : Option String := none
deriving DecidableEq

/-- The `serviceStatus` record; `currentBackendName` is read by the component
although the declared interface omits it. -/
structure ServiceStatus where
  isRunning : Bool
  port : Int
  pid : Option Int := none
  currentBackendName : Option String := none
deriving DecidableEq

/-- The `ConfigurationInfo` interface; the untyped `configuration` document is
the `Json` tree (`none` models a null/absent document). -/
structure ConfigurationInfo where
  availableBackends : List Backend
  currentBackendOverride : Option BackendOverride
  configuration : Option Json
  configPath : String
  platform : String
  architecture : String
  serviceStatus : ServiceStatus
  models : Option (List ModelConfig) := none

/-- The `operationStatus.type` values. -/
inductive OpType where
  | idle
  | saving
  | restarting
  | reconfiguring
  | success
  | error
deriving DecidableEq

/-- The `operationStatus` state value. -/
structure OpStatus where
  type : OpType
  message : String
deriving DecidableEq

/-- The component's `useState` variables that the orchestrator reads or
writes. -/
structure PanelState where
  configInfo : Option ConfigurationInfo
  loading : Bool
  error : Option String
  selectedBackend : String
  actualBackend : String
  showJsonEditor : Bool
  jsonConfig : String
  jsonError : Option String
  modelConfigs : List ModelConfig
  selectedModelId : Option String
  operationStatus : OpStatus
  hasUnsavedChanges : Bool

/-- The initial `useState` values of the component. -/
def initialState : PanelState :=
  { configInfo := none
    loading := true
    error := none
    selectedBackend := "auto"
    actualBackend := ""
    showJsonEditor := false
    jsonConfig := ""
    jsonError := none
    modelConfigs := []
    selectedModelId := none
    operationStatus := ⟨OpType.idle, ""⟩
    hasUnsavedChanges := false }

/-- One remote control-plane call, recorded with its argument. -/
inductive RemoteCall where
  | getConfigurationInfo
  | getModelConfigurations
  | setBackendOverride (backendId : Option String)
  | restartWithOverrides
  | regenerateConfig
  | saveConfigFromJson (text : String)
  | saveConfigAndRestart (text : String)
  | saveModelConfiguration (name : String) (config : ModelConfig)
  | saveAllModelConfigurations (configs : List ModelConfig)
deriving DecidableEq

/-- Outcome of an acknowledge-only remote call.  `fail m` covers both a
`success:false` response carrying `result.error` and a thrown transport error;
`none`/empty messages stand for a falsy `result.error`. -/
inductive CallRes where
  | ok
  | fail (msg : Option String)
deriving DecidableEq

/-- Outcome of `getConfigurationInfo`. -/
inductive InfoRes where
  | ok (info : ConfigurationInfo)
  | fail (msg : Option String)

/-- Outcome of `getModelConfigurations`; `ok none` is a success response with
a falsy `models` field. -/
inductive ModelsRes where
  | ok (models : Option (List ModelConfig))
  | fail (msg : Option String)
deriving DecidableEq

/-- Outcome of `regenerateConfig`, carrying the discovered model count. -/
inductive RegenRes where
  | ok (modelCount : Int)
  | fail (msg : Option String)
deriving DecidableEq

/-- The `requiresRestart` recommendation returned by `saveConfigFromJson`. -/
structure RequiresRestart where
  required : Bool
  recommendation : String
deriving DecidableEq

/-- Outcome of `saveConfigFromJson`. -/
inductive SaveJsonRes where
  | ok (requiresRestart : Option RequiresRestart)
  | fail (msg : Option String)
deriving DecidableEq

/-- Response environment: the result each remote call would return during one
handler run. -/
structure RemoteEnv where
  infoRes : InfoRes
  modelsRes : ModelsRes
  setOverrideRes : CallRes
  restartRes : CallRes
  regenRes : RegenRes
  saveJsonRes : SaveJsonRes
  saveRestartRes : CallRes
  saveModelRes : CallRes
  saveAllRes : CallRes

/-- JavaScript `m || d` on an optional string: the default replaces a missing
or empty (falsy) message. -/
def jsOr (o : Option String) (d : String) : String :=
  match o with
  | some m => if m = "" then d else m
  | none => d

/-- JavaScript truthiness of a nullable string (`!!x` / `if (x)`). -/
def strTruthy (o : Option String) : Bool :=
  match o with
  | some m => !(m == "")
  | none => false

/-- Result record of one handler run: successor state, remote calls issued in
order, statuses set synchronously on the handler's own code path, and the
`setTimeout` status updates it scheduled (delay in milliseconds, status). -/
structure HandlerOut where
  state : PanelState
  calls : List RemoteCall
  trace : List OpStatus
  timers : List (Nat × OpStatus)

/-- A pending `setTimeout` callback firing: every scheduled callback in the
source does exactly `setOperationStatus(status)`. -/
def fireTimer (t : Nat × OpStatus) (s : PanelState) : PanelState :=
  { s with operationStatus := t.2 }

/-- `loadModelConfigurations`: on a success response with a truthy `models`
field the model list is replaced; every other outcome (including a thrown
error, which is caught and logged) leaves the state untouched. -/
def loadModelConfigurations (env : RemoteEnv) (s : PanelState) :
    PanelState × List RemoteCall :=
  match env.modelsRes with
  | ModelsRes.ok (some ms) => ({ s with modelConfigs := ms }, [RemoteCall.getModelConfigurations])
  | ModelsRes.ok none => (s, [RemoteCall.getModelConfigurations])
  | ModelsRes.fail _ => (s, [RemoteCall.getModelConfigurations])

/-- State updates applied by `loadConfigurationInfo` on a successful
`getConfigurationInfo` response. -/
def applyInfo (info : ConfigurationInfo) (s : PanelState) : PanelState :=
  let s1 := { s with
    configInfo := some info
    selectedBackend :=
      jsOr (info.currentBackendOverride.bind (fun ov => ov.backendId)) "auto" }
  let s2 :=
    match info.serviceStatus.currentBackendName with
    | some n => if n = "" then s1 else { s1 with actualBackend := n }
    | none => s1
  match info.configuration with
  | some c => { s2 with jsonConfig := stringify2 c }
  | none => s2

/-- `loadConfigurationInfo`: the mandatory info read, then the tolerated model
read; a failing info read sets `error` and aborts. -/
def loadConfigurationInfo (env : RemoteEnv) (s : PanelState) :
    PanelState × List RemoteCall :=
  let s0 := { s with loading := true, error := none }
  match env.infoRes with
  | InfoRes.ok info =>
    let r := loadModelConfigurations env (applyInfo info s0)
    ({ r.1 with loading := false }, RemoteCall.getConfigurationInfo :: r.2)
  | InfoRes.fail m =>
    ({ s0 with error := some (jsOr m "Failed to load configuration"), loading := false },
      [RemoteCall.getConfigurationInfo])

/-- The remote calls `loadConfigurationInfo` issues, by info-read outcome. -/
def loadCallList (env : RemoteEnv) : List RemoteCall :=
  match env.infoRes with
  | InfoRes.ok _ => [RemoteCall.getConfigurationInfo, RemoteCall.getModelConfigurations]
  | InfoRes.fail _ => [RemoteCall.getConfigurationInfo]

/-- `backendId === 'auto' ? null : backendId`, the argument passed to
`setBackendOverride`. -/
def backendArg (backendId : String) : Option String :=
  if backendId = "auto" then none else some backendId

/-- `handleBackendChange`: set saving, call `setBackendOverride`; on success
set restarting, schedule the four cosmetic progress timers, call
`restartWithOverrides`; on success set the success message, reload the
snapshot and schedule the auto-clear; any failure sets the error phase with
the failure's message and its own auto-clear. -/
def handleBackendChange (env : RemoteEnv) (backendId : String) (s : PanelState) :
    HandlerOut :=
  let st1 : OpStatus := ⟨OpType.saving, "Updating backend selection..."⟩
  let s1 := { s with operationStatus := st1 }
  match env.setOverrideRes with
  | CallRes.ok =>
    let st2 : OpStatus := ⟨OpType.restarting, "Stopping service..."⟩
    let s2 := { s1 with selectedBackend := backendId, operationStatus := st2 }
    let cosmetic : List (Nat × OpStatus) :=
      [ (1000, ⟨OpType.restarting, "Applying backend changes..."⟩),
        (3000, ⟨OpType.restarting,
          "Starting service with " ++
            (if backendId = "auto" then "auto-detect" else backendId) ++
            " backend..."⟩),
        (5000, ⟨OpType.restarting, "Initializing service... (this may take a moment)"⟩),
        (10000, ⟨OpType.restarting, "Service startup in progress... (almost ready)"⟩) ]
    match env.restartRes with
    | CallRes.ok =>
      let st3 : OpStatus := ⟨OpType.success,
        "✅ Backend changed to " ++
          (if backendId = "auto" then "Auto-detect" else backendId) ++
          " and service restarted!"⟩
      let r := loadConfigurationInfo env { s2 with operationStatus := st3 }
      { state := r.1
        calls := [RemoteCall.setBackendOverride (backendArg backendId),
          RemoteCall.restartWithOverrides] ++ r.2
        trace := [st1, st2, st3]
        timers := cosmetic ++ [(3000, ⟨OpType.idle, ""⟩)] }
    | CallRes.fail m =>
      let st3 : OpStatus := ⟨OpType.error, jsOr m "Failed to restart service with new backend"⟩
      { state := { s2 with operationStatus := st3 }
        calls := [RemoteCall.setBackendOverride (backendArg backendId),
          RemoteCall.restartWithOverrides]
        trace := [st1, st2, st3]
        timers := cosmetic ++ [(5000, ⟨OpType.idle, ""⟩)] }
  | CallRes.fail m =>
    let st2 : OpStatus := ⟨OpType.error, jsOr m "Failed to set backend"⟩
    { state := { s1 with operationStatus := st2 }
      calls := [RemoteCall.setBackendOverride (backendArg backendId)]
      trace := [st1, st2]
      timers := [(5000, ⟨OpType.idle, ""⟩)] }

/-- `handleReconfigure`: regenerate the configuration, report the discovered
model count, reload the snapshot on success. -/
def handleReconfigure (env : RemoteEnv) (s : PanelState) : HandlerOut :=
  let st1 : OpStatus := ⟨OpType.reconfiguring, "Regenerating configuration..."⟩
  let s1 := { s with operationStatus := st1 }
  match env.regenRes with
  | RegenRes.ok n =>
    let st2 : OpStatus := ⟨OpType.success,
      "Configuration regenerated with " ++ toString n ++ " models"⟩
    let r := loadConfigurationInfo env { s1 with operationStatus := st2 }
    { state := r.1
      calls := RemoteCall.regenerateConfig :: r.2
      trace := [st1, st2]
      timers := [(2000, ⟨OpType.idle, ""⟩)] }
  | RegenRes.fail m =>
    let st2 : OpStatus := ⟨OpType.error, jsOr m "Failed to reconfigure"⟩
    { state := { s1 with operationStatus := st2 }
      calls := [RemoteCall.regenerateConfig]
      trace := [st1, st2]
      timers := [(3000, ⟨OpType.idle, ""⟩)] }

/-- `handleRestartWithOverrides`: schedule two cosmetic progress timers, call
`restartWithOverrides`, reload the snapshot on success. -/
def handleRestartWithOverrides (env : RemoteEnv) (s : PanelState) : HandlerOut :=
  let st1 : OpStatus := ⟨OpType.restarting, "Stopping service..."⟩
  let s1 := { s with operationStatus := st1 }
  let cosmetic : List (Nat × OpStatus) :=
    [ (1000, ⟨OpType.restarting, "Applying configuration..."⟩),
      (3000, ⟨OpType.restarting, "Starting service with new settings..."⟩) ]
  match env.restartRes with
  | CallRes.ok =>
    let st2 : OpStatus := ⟨OpType.success, "Service restarted successfully!"⟩
    let r := loadConfigurationInfo env { s1 with operationStatus := st2 }
    { state := r.1
      calls := RemoteCall.restartWithOverrides :: r.2
      trace := [st1, st2]
      timers := cosmetic ++ [(2000, ⟨OpType.idle, ""⟩)] }
  | CallRes.fail m =>
    let st2 : OpStatus := ⟨OpType.error, jsOr m "Failed to restart service"⟩
    { state := { s1 with operationStatus := st2 }
      calls := [RemoteCall.restartWithOverrides]
      trace := [st1, st2]
      timers := cosmetic ++ [(3000, ⟨OpType.idle, ""⟩)] }

/-- `configInfo?.configuration ? JSON.stringify(configInfo.configuration,
null, 2) : ''`, the reference text of the change detector. -/
def originalConfigText (s : PanelState) : String :=
  match s.configInfo with
  | some ci =>
    match ci.configuration with
    | some c => stringify2 c
    | none => ""
  | none => ""

/-- `handleJsonChange`: store the edit text, compare it verbatim against the
serialized snapshot document, and validate it.  The stored parse-failure
message stands in for the engine-specific `SyntaxError` text, which is always
non-empty. -/
def handleJsonChange (value : String) (s : PanelState) : PanelState :=
  let s1 := { s with
    jsonConfig := value
    hasUnsavedChanges := value != originalConfigText s }
  if jsonValid value then { s1 with jsonError := none }
  else { s1 with jsonError := some "Invalid JSON" }

/-- `saveConfiguration`: a truthy `jsonError` sets the error phase and
returns; otherwise persist the edit text, clear the dirty flag and reload the
snapshot on success. -/
def handleSaveConfiguration (env : RemoteEnv) (s : PanelState) : HandlerOut :=
  if strTruthy s.jsonError then
    let st : OpStatus := ⟨OpType.error, "Cannot save configuration with JSON errors"⟩
    { state := { s with operationStatus := st }, calls := [], trace := [st], timers := [] }
  else
    let st1 : OpStatus := ⟨OpType.saving, "Saving configuration..."⟩
    let s1 := { s with operationStatus := st1 }
    match env.saveJsonRes with
    | SaveJsonRes.ok rr =>
      let req : Bool := match rr with
                        | some r => r.required
                        | none => false
      let msg := "✅ Configuration saved successfully!" ++
        (match rr with
         | some r => if r.required then " ⚠️ " ++ r.recommendation else ""
         | none => "")
      let st2 : OpStatus := ⟨OpType.success, msg⟩
      let r := loadConfigurationInfo env
        { s1 with operationStatus := st2, hasUnsavedChanges := false }
      { state := r.1
        calls := RemoteCall.saveConfigFromJson s.jsonConfig :: r.2
        trace := [st1, st2]
        timers := [((if req then 5000 else 2000), ⟨OpType.idle, ""⟩)] }
    | SaveJsonRes.fail m =>
      let st2 : OpStatus := ⟨OpType.error, jsOr m "Failed to save configuration"⟩
      { state := { s1 with operationStatus := st2 }
        calls := [RemoteCall.saveConfigFromJson s.jsonConfig]
        trace := [st1, st2]
        timers := [(5000, ⟨OpType.idle, ""⟩)] }

/-- `saveConfigurationAndRestart`: like `saveConfiguration` but through
`saveConfigAndRestart`, with two cosmetic restart-progress timers. -/
def handleSaveConfigurationAndRestart (env : RemoteEnv) (s : PanelState) : HandlerOut :=
  if strTruthy s.jsonError then
    let st : OpStatus := ⟨OpType.error, "Cannot save configuration with JSON errors"⟩
    { state := { s with operationStatus := st }, calls := [], trace := [st], timers := [] }
  else
    let st1 : OpStatus := ⟨OpType.saving, "Saving configuration..."⟩
    let s1 := { s with operationStatus := st1 }
    let cosmetic : List (Nat × OpStatus) :=
      [ (1000, ⟨OpType.restarting, "Configuration saved, restarting service..."⟩),
        (3000, ⟨OpType.restarting, "Applying new configuration..."⟩) ]
    match env.saveRestartRes with
    | CallRes.ok =>
      let st2 : OpStatus := ⟨OpType.success,
        "✅ Configuration saved and service restarted successfully!"⟩
      let r := loadConfigurationInfo env
        { s1 with operationStatus := st2, hasUnsavedChanges := false }
      { state := r.1
        calls := RemoteCall.saveConfigAndRestart s.jsonConfig :: r.2
        trace := [st1, st2]
        timers := cosmetic ++ [(3000, ⟨OpType.idle, ""⟩)] }
    | CallRes.fail m =>
      let st2 : OpStatus := ⟨OpType.error, jsOr m "Failed to save configuration and restart"⟩
      { state := { s1 with operationStatus := st2 }
        calls := [RemoteCall.saveConfigAndRestart s.jsonConfig]
        trace := [st1, st2]
        timers := cosmetic ++ [(5000, ⟨OpType.idle, ""⟩)] }

/-- `saveModelConfiguration(name)`: find the model in the edit buffer, persist
its full record, and on success clear the global dirty flag (no snapshot
reload). -/
def handleSaveModelConfiguration (env : RemoteEnv) (modelName : String)
    (s : PanelState) : HandlerOut :=
  let st1 : OpStatus := ⟨OpType.saving, "Saving configuration for " ++ modelName ++ "..."⟩
  let s1 := { s with operationStatus := st1 }
  match s.modelConfigs.find? (fun m => m.name == modelName) with
  | none =>
    let st2 : OpStatus := ⟨OpType.error, "Model configuration not found"⟩
    { state := { s1 with operationStatus := st2 }
      calls := []
      trace := [st1, st2]
      timers := [(3000, ⟨OpType.idle, ""⟩)] }
  | some mc =>
    match env.saveModelRes with
    | CallRes.ok =>
      let st2 : OpStatus := ⟨OpType.success, "✅ Configuration saved for " ++ modelName⟩
      { state := { s1 with operationStatus := st2, hasUnsavedChanges := false }
        calls := [RemoteCall.saveModelConfiguration modelName mc]
        trace := [st1, st2]
        timers := [(2000, ⟨OpType.idle, ""⟩)] }
    | CallRes.fail m =>
      let st2 : OpStatus := ⟨OpType.error, jsOr m "Failed to save model configuration"⟩
      { state := { s1 with operationStatus := st2 }
        calls := [RemoteCall.saveModelConfiguration modelName mc]
        trace := [st1, st2]
        timers := [(3000, ⟨OpType.idle, ""⟩)] }

/-- `saveAllModelConfigurations`: persist the whole buffer in one remote call
and on success clear the global dirty flag. -/
def handleSaveAllModelConfigurations (env : RemoteEnv) (s : PanelState) : HandlerOut :=
  let st1 : OpStatus := ⟨OpType.saving, "Saving all model configurations..."⟩
  let s1 := { s with operationStatus := st1 }
  match env.saveAllRes with
  | CallRes.ok =>
    let st2 : OpStatus := ⟨OpType.success, "✅ All model configurations saved successfully!"⟩
    { state := { s1 with operationStatus := st2, hasUnsavedChanges := false }
      calls := [RemoteCall.saveAllModelConfigurations s.modelConfigs]
      trace := [st1, st2]
      timers := [(2000, ⟨OpType.idle, ""⟩)] }
  | CallRes.fail m =>
    let st2 : OpStatus := ⟨OpType.error, jsOr m "Failed to save model configurations"⟩
    { state := { s1 with operationStatus := st2 }
      calls := [RemoteCall.saveAllModelConfigurations s.modelConfigs]
      trace := [st1, st2]
      timers := [(3000, ⟨OpType.idle, ""⟩)] }

/-- One settable model field together with the value assigned to it, covering
the fields the component patches through `updateModelConfig`. -/
inductive FieldPatch where
  | configuredContextSize (v : Int)
  | gpuLayers (v : Int)
  | batchSize (v : Int)
  | threads (v : Int)
  | ttl (v : Int)
  | flashAttention (v : Bool)
  | memoryLock (v : Bool)
deriving DecidableEq

/-- `{ ...model, [field]: value }`. -/
def applyPatch (p : FieldPatch) (m : ModelConfig) : ModelConfig :=
  match p with
  | FieldPatch.configuredContextSize v => { m with configuredContextSize := some v }
  | FieldPatch.gpuLayers v => { m with gpuLayers := some v }
  | FieldPatch.batchSize v => { m with batchSize := some v }
  | FieldPatch.threads v => { m with threads := some v }
  | FieldPatch.ttl v => { m with ttl := some v }
  | FieldPatch.flashAttention v => { m with flashAttention := some v }
  | FieldPatch.memoryLock v => { m with memoryLock := some v }

/-- `updateModelConfig`: map over the registry patching the named model, and
set the dirty flag unconditionally. -/
def updateModelConfig (modelName : String) (p : FieldPatch) (s : PanelState) :
    PanelState :=
  { s with
    modelConfigs := s.modelConfigs.map
      (fun m => if m.name == modelName then applyPatch p m else m)
    hasUnsavedChanges := true }

/-- The UI intents entering the orchestrator. -/
inductive Intent where
  | changeBackend (backendId : String)
  | reconfigure
  | restartService
  | saveConfig
  | saveConfigAndRestart
  | saveModel (name : String)
  | saveAllModels
deriving DecidableEq

/-- `isOperationInProgress`: the phase is saving, restarting or
reconfiguring. -/
def isOperationInProgress (s : PanelState) : Bool :=
  s.operationStatus.type == OpType.saving ||
    s.operationStatus.type == OpType.restarting ||
    s.operationStatus.type == OpType.reconfiguring

/-- The `disabled` attribute of the button through which each intent enters:
every button is disabled while an operation is in progress; the two config
save buttons additionally require a valid buffer and unsaved changes; Save All
Models requires unsaved changes. -/
def intentDisabled (i : Intent) (s : PanelState) : Bool :=
  match i with
  | Intent.changeBackend _ => isOperationInProgress s
  | Intent.reconfigure => isOperationInProgress s
  | Intent.restartService => isOperationInProgress s
  | Intent.saveConfig =>
    isOperationInProgress s || strTruthy s.jsonError || !s.hasUnsavedChanges
  | Intent.saveConfigAndRestart =>
    isOperationInProgress s || strTruthy s.jsonError || !s.hasUnsavedChanges
  | Intent.saveModel _ => isOperationInProgress s
  | Intent.saveAllModels => isOperationInProgress s || !s.hasUnsavedChanges

/-- Whether a dispatched intent ran its handler or was dropped by the disabled
gate. -/
inductive DispatchResult where
  | rejected
  | ran
deriving DecidableEq

/-- Result of dispatching one intent. -/
structure DispatchOut where
  state : PanelState
  calls : List RemoteCall
  trace : List OpStatus
  timers : List (Nat × OpStatus)
  result : DispatchResult

/-- The handler each intent invokes. -/
def runIntent (env : RemoteEnv) (i : Intent) (s : PanelState) : HandlerOut :=
  match i with
  | Intent.changeBackend bid => handleBackendChange env bid s
  | Intent.reconfigure => handleReconfigure env s
  | Intent.restartService => handleRestartWithOverrides env s
  | Intent.saveConfig => handleSaveConfiguration env s
  | Intent.saveConfigAndRestart => handleSaveConfigurationAndRestart env s
  | Intent.saveModel n => handleSaveModelConfiguration env n s
  | Intent.saveAllModels => handleSaveAllModelConfigurations env s

/-- Dispatch of one UI intent: a click on a disabled control does nothing
(recorded as `rejected`); otherwise the handler runs. -/
def dispatch (env : RemoteEnv) (i : Intent) (s : PanelState) : DispatchOut :=
  if intentDisabled i s then
    { state := s, calls := [], trace := [], timers := [], result := DispatchResult.rejected }
  else
    let out := runIntent env i s
    { state := out.state, calls := out.calls, trace := out.trace,
      timers := out.timers, result := DispatchResult.ran }

/-! Concrete fixtures used by witnesses and counterexamples. -/

/-- A sample configuration document. -/
def sampleDoc : Json := Json.obj [("a", Json.num 1)]

/-- A sample backend entry. -/
def sampleBackend : Backend :=
  { id := "cuda", name := "CUDA", description := "NVIDIA GPU backend",
    folder := "cuda", requiresGPU := true, gpuType := "nvidia", isAvailable := true }

/-- A sample service status. -/
def sampleService : ServiceStatus :=
  { isRunning := true, port := 8080, currentBackendName := some "cuda" }

/-- A sample configuration-info snapshot. -/
def sampleInfo : ConfigurationInfo :=
  { availableBackends := [sampleBackend]
    currentBackendOverride := some { backendId := some "cuda", isOverridden := true }
    configuration := some sampleDoc
    configPath := "/tmp/llama-swap.yaml"
    platform := "linux"
    architecture := "x64"
    serviceStatus := sampleService }

/-- A sample model record. -/
def model1 : ModelConfig :=
  { name := "m1", path := "/models/m1.gguf", port := 9001, isEmbedding := false,
    status := ModelStatus.available }

/-- A second sample model record. -/
def model2 : ModelConfig :=
  { name := "m2", path := "/models/m2.gguf", port := 9002, isEmbedding := false,
    status := ModelStatus.available }

/-- A loaded idle panel state with two models. -/
def idleState : PanelState :=
  { initialState with
    loading := false
    configInfo := some sampleInfo
    modelConfigs := [model1, model2]
    jsonConfig := stringify2 sampleDoc }

/-- An environment in which every remote call succeeds. -/
def envAllOk : RemoteEnv :=
  { infoRes := InfoRes.ok sampleInfo
    modelsRes := ModelsRes.ok (some [model1, model2])
    setOverrideRes := CallRes.ok
    restartRes := CallRes.ok
    regenRes := RegenRes.ok 2
    saveJsonRes := SaveJsonRes.ok none
    saveRestartRes := CallRes.ok
    saveModelRes := CallRes.ok
    saveAllRes := CallRes.ok }

/-- `envAllOk` with a failing `setBackendOverride`. -/
def envFailOverride : RemoteEnv :=
  { envAllOk with setOverrideRes := CallRes.fail (some "override boom") }

/-- `envAllOk` with a failing `restartWithOverrides`. -/
def envFailRestart : RemoteEnv :=
  { envAllOk with restartRes := CallRes.fail (some "restart boom") }

/-- `envAllOk` with a failing `getModelConfigurations`. -/
def envModelsFail : RemoteEnv :=
  { envAllOk with modelsRes := ModelsRes.fail (some "models boom") }

/-- `idleState` while a save is in flight. -/
def savingState : PanelState :=
  { idleState with operationStatus := ⟨OpType.saving, "Saving configuration..."⟩ }

/-! Theorems settling the claims. -/

/-- C1: while an operation is in flight (`phase` is saving, restarting or
reconfiguring), dispatching any of the seven intents is rejected
synchronously: the state (hence the phase) is unchanged and no remote call is
issued; and the single phase variable can hold at most one of the three
in-flight values at any instant. -/
theorem C1_busy_guard (env : RemoteEnv) (i : Intent) (s : PanelState)
    (h : isOperationInProgress s = true) :
    dispatch env i s =
      { state := s, calls := [], trace := [], timers := [],
        result := DispatchResult.rejected } ∧
    ¬(s.operationStatus.type = OpType.saving ∧
        s.operationStatus.type = OpType.restarting) ∧
    ¬(s.operationStatus.type = OpType.saving ∧
        s.operationStatus.type = OpType.reconfiguring) ∧
    ¬(s.operationStatus.type = OpType.restarting ∧
        s.operationStatus.type = OpType.reconfiguring) := by
  refine ⟨?_, ?_, ?_, ?_⟩
  · cases i <;> simp [dispatch, intentDisabled, h]
  all_goals (rintro ⟨h1, h2⟩; rw [h1] at h2; exact absurd h2 (by simp))

/-- C1 witness: at a concrete in-flight state, a concrete Reconfigure intent
is rejected with no state change and no remote call. -/
theorem C1_busy_guard_witness :
    isOperationInProgress savingState = true ∧
    dispatch envAllOk Intent.reconfigure savingState =
      { state := savingState, calls := [], trace := [], timers := [],
        result := DispatchResult.rejected } :=
  ⟨rfl, (C1_busy_guard envAllOk Intent.reconfigure savingState rfl).1⟩

/-- C2: behavior of the code at the failing input.  After a ChangeBackend run
in which both remote calls succeed, the 10-second cosmetic progress timer is
still pending (the source never cancels its timers), and its firing overwrites
the terminal success phase with a stale restarting message. -/
theorem C2_stale_timer_not_cancelled :
    (handleBackendChange envAllOk "cuda" idleState).state.operationStatus.type =
      OpType.success ∧
    ((10000 : Nat), (⟨OpType.restarting,
        "Service startup in progress... (almost ready)"⟩ : OpStatus)) ∈
      (handleBackendChange envAllOk "cuda" idleState).timers ∧
    (fireTimer (10000, ⟨OpType.restarting,
        "Service startup in progress... (almost ready)"⟩)
      (handleBackendChange envAllOk "cuda" idleState).state).operationStatus.type =
      OpType.restarting := by
  refine ⟨rfl, ?_, rfl⟩
  simp [handleBackendChange, envAllOk, loadConfigurationInfo, loadModelConfigurations,
    applyInfo]

/-! Helper lemmas about the snapshot reload. -/

@[simp]
theorem applyInfo_operationStatus (info : ConfigurationInfo) (s : PanelState) :
    (applyInfo info s).operationStatus = s.operationStatus := by
  unfold applyInfo
  rcases info.serviceStatus.currentBackendName with _ | n
  · rcases info.configuration with _ | c <;> simp
  · rcases info.configuration with _ | c <;> by_cases hn : n = "" <;> simp [hn]

@[simp]
theorem applyInfo_modelConfigs (info : ConfigurationInfo) (s : PanelState) :
    (applyInfo info s).modelConfigs = s.modelConfigs := by
  unfold applyInfo
  rcases info.serviceStatus.currentBackendName with _ | n
  · rcases info.configuration with _ | c <;> simp
  · rcases info.configuration with _ | c <;> by_cases hn : n = "" <;> simp [hn]

@[simp]
theorem applyInfo_configInfo (info : ConfigurationInfo) (s : PanelState) :
    (applyInfo info s).configInfo = some info := by
  unfold applyInfo
  rcases info.serviceStatus.currentBackendName with _ | n
  · rcases info.configuration with _ | c <;> simp
  · rcases info.configuration with _ | c <;> by_cases hn : n = "" <;> simp [hn]

@[simp]
theorem applyInfo_error (info : ConfigurationInfo) (s : PanelState) :
    (applyInfo info s).error = s.error := by
  unfold applyInfo
  rcases info.serviceStatus.currentBackendName with _ | n
  · rcases info.configuration with _ | c <;> simp
  · rcases info.configuration with _ | c <;> by_cases hn : n = "" <;> simp [hn]

@[simp]
theorem applyInfo_hasUnsavedChanges (info : ConfigurationInfo) (s : PanelState) :
    (applyInfo info s).hasUnsavedChanges = s.hasUnsavedChanges := by
  unfold applyInfo
  rcases info.serviceStatus.currentBackendName with _ | n
  · rcases info.configuration with _ | c <;> simp
  · rcases info.configuration with _ | c <;> by_cases hn : n = "" <;> simp [hn]

@[simp]
theorem loadModels_operationStatus (env : RemoteEnv) (s : PanelState) :
    (loadModelConfigurations env s).1.operationStatus = s.operationStatus := by
  cases hm : env.modelsRes with
  | ok ms => cases ms <;> simp [loadModelConfigurations, hm]
  | fail m => simp [loadModelConfigurations, hm]

@[simp]
theorem loadModels_configInfo (env : RemoteEnv) (s : PanelState) :
    (loadModelConfigurations env s).1.configInfo = s.configInfo := by
  cases hm : env.modelsRes with
  | ok ms => cases ms <;> simp [loadModelConfigurations, hm]
  | fail m => simp [loadModelConfigurations, hm]

@[simp]
theorem loadModels_error (env : RemoteEnv) (s : PanelState) :
    (loadModelConfigurations env s).1.error = s.error := by
  cases hm : env.modelsRes with
  | ok ms => cases ms <;> simp [loadModelConfigurations, hm]
  | fail m => simp [loadModelConfigurations, hm]

@[simp]
theorem loadModels_hasUnsavedChanges (env : RemoteEnv) (s : PanelState) :
    (loadModelConfigurations env s).1.hasUnsavedChanges = s.hasUnsavedChanges := by
  cases hm : env.modelsRes with
  | ok ms => cases ms <;> simp [loadModelConfigurations, hm]
  | fail m => simp [loadModelConfigurations, hm]

theorem loadModels_fail_modelConfigs (env : RemoteEnv) (s : PanelState)
    (m : Option String) (h : env.modelsRes = ModelsRes.fail m) :
    (loadModelConfigurations env s).1.modelConfigs = s.modelConfigs := by
  simp [loadModelConfigurations, h]

theorem loadInfo_calls (env : RemoteEnv) (s : PanelState) :
    (loadConfigurationInfo env s).2 = loadCallList env := by
  rcases h : env.infoRes with info | m
  · rcases hm : env.modelsRes with ⟨_ | ms⟩ | m2 <;>
      simp [loadConfigurationInfo, loadCallList, loadModelConfigurations, h, hm]
  · simp [loadConfigurationInfo, loadCallList, h]

theorem loadInfo_operationStatus (env : RemoteEnv) (s : PanelState) :
    (loadConfigurationInfo env s).1.operationStatus = s.operationStatus := by
  rcases h : env.infoRes with info | m <;> simp [loadConfigurationInfo, h]

theorem loadInfo_hasUnsavedChanges (env : RemoteEnv) (s : PanelState) :
    (loadConfigurationInfo env s).1.hasUnsavedChanges = s.hasUnsavedChanges := by
  rcases h : env.infoRes with info | m <;> simp [loadConfigurationInfo, h]

theorem loadInfo_ok_configInfo (env : RemoteEnv) (s : PanelState)
    (info : ConfigurationInfo) (h : env.infoRes = InfoRes.ok info) :
    (loadConfigurationInfo env s).1.configInfo = some info := by
  simp [loadConfigurationInfo, h]

/-- C3: after any edit whose text fails JSON validation, dispatching
SaveConfig or SaveConfigAndRestart is rejected synchronously: the state is
returned unchanged (so `hasUnsavedChanges` is untouched), no remote call is
issued, and the phase stays idle. -/
theorem C3_invalid_json_no_save (env : RemoteEnv) (s : PanelState) (text : String)
    (hv : jsonValid text = false) (hidle : s.operationStatus.type = OpType.idle) :
    (handleJsonChange text s).operationStatus.type = OpType.idle ∧
    dispatch env Intent.saveConfig (handleJsonChange text s) =
      { state := handleJsonChange text s, calls := [], trace := [], timers := [],
        result := DispatchResult.rejected } ∧
    dispatch env Intent.saveConfigAndRestart (handleJsonChange text s) =
      { state := handleJsonChange text s, calls := [], trace := [], timers := [],
        result := DispatchResult.rejected } := by
  have hje : (handleJsonChange text s).jsonError = some "Invalid JSON" := by
    simp [handleJsonChange, hv]
  have hop : (handleJsonChange text s).operationStatus = s.operationStatus := by
    simp [handleJsonChange, hv]
  have hs : strTruthy (some "Invalid JSON") = true := rfl
  have hdis1 : intentDisabled Intent.saveConfig (handleJsonChange text s) = true := by
    simp [intentDisabled, hje, hs]
  have hdis2 : intentDisabled Intent.saveConfigAndRestart (handleJsonChange text s) = true := by
    simp [intentDisabled, hje, hs]
  exact ⟨by rw [hop]; exact hidle, by simp [dispatch, hdis1], by simp [dispatch, hdis2]⟩

/-- C3 witness: at the concrete invalid edit text consisting of a lone opening
brace, both save intents are rejected with no call and no state change. -/
theorem C3_invalid_json_no_save_witness :
    jsonValid "\x7b" = false ∧
    ((handleJsonChange "\x7b" idleState).operationStatus.type = OpType.idle ∧
      dispatch envAllOk Intent.saveConfig (handleJsonChange "\x7b" idleState) =
        { state := handleJsonChange "\x7b" idleState, calls := [], trace := [],
          timers := [], result := DispatchResult.rejected } ∧
      dispatch envAllOk Intent.saveConfigAndRestart (handleJsonChange "\x7b" idleState) =
        { state := handleJsonChange "\x7b" idleState, calls := [], trace := [],
          timers := [], result := DispatchResult.rejected }) :=
  ⟨by decide, C3_invalid_json_no_save envAllOk idleState "\x7b" (by decide) rfl⟩

/-- C4: ChangeBackend drives saving (set-override call) → restarting (restart
call) → success with a snapshot reload; an override failure stops after one
call with the failure's message; a restart failure stops after two calls with
the failure's message, keeps the already-applied selection, and issues no
further `setBackendOverride` (no rollback). -/
theorem C4_change_backend_sequence (env : RemoteEnv) (backendId : String)
    (s : PanelState) :
    (env.setOverrideRes = CallRes.ok → env.restartRes = CallRes.ok →
      (handleBackendChange env backendId s).trace.map OpStatus.type =
        [OpType.saving, OpType.restarting, OpType.success] ∧
      (handleBackendChange env backendId s).calls =
        [RemoteCall.setBackendOverride (backendArg backendId),
          RemoteCall.restartWithOverrides] ++ loadCallList env ∧
      (handleBackendChange env backendId s).state.operationStatus.type =
        OpType.success ∧
      (∀ info, env.infoRes = InfoRes.ok info →
        (handleBackendChange env backendId s).state.configInfo = some info)) ∧
    (∀ m, env.setOverrideRes = CallRes.fail m →
      (handleBackendChange env backendId s).trace.map OpStatus.type =
        [OpType.saving, OpType.error] ∧
      (handleBackendChange env backendId s).state.operationStatus =
        ⟨OpType.error, jsOr m "Failed to set backend"⟩ ∧
      (handleBackendChange env backendId s).calls =
        [RemoteCall.setBackendOverride (backendArg backendId)]) ∧
    (∀ m, env.setOverrideRes = CallRes.ok → env.restartRes = CallRes.fail m →
      (handleBackendChange env backendId s).trace.map OpStatus.type =
        [OpType.saving, OpType.restarting, OpType.error] ∧
      (handleBackendChange env backendId s).state.operationStatus =
        ⟨OpType.error, jsOr m "Failed to restart service with new backend"⟩ ∧
      (handleBackendChange env backendId s).state.selectedBackend = backendId ∧
      (handleBackendChange env backendId s).calls =
        [RemoteCall.setBackendOverride (backendArg backendId),
          RemoteCall.restartWithOverrides]) := by
  refine ⟨?_, ?_, ?_⟩
  · intro h1 h2
    refine ⟨?_, ?_, ?_, ?_⟩
    · simp [handleBackendChange, h1, h2]
    · simp [handleBackendChange, h1, h2, loadInfo_calls]
    · simp [handleBackendChange, h1, h2, loadInfo_operationStatus]
    · intro info hinfo
      simp [handleBackendChange, h1, h2, loadInfo_ok_configInfo env _ info hinfo]
  · intro m hm
    refine ⟨?_, ?_, ?_⟩ <;> simp [handleBackendChange, hm]
  · intro m h1 hm
    refine ⟨?_, ?_, ?_, ?_⟩ <;> simp [handleBackendChange, h1, hm]

/-- C4 witness: concrete runs exercising the all-success, override-failure
and restart-failure cases. -/
theorem C4_change_backend_sequence_witness :
    (handleBackendChange envAllOk "cuda" idleState).trace.map OpStatus.type =
      [OpType.saving, OpType.restarting, OpType.success] ∧
    (handleBackendChange envAllOk "cuda" idleState).calls =
      [RemoteCall.setBackendOverride (some "cuda"), RemoteCall.restartWithOverrides,
        RemoteCall.getConfigurationInfo, RemoteCall.getModelConfigurations] ∧
    (handleBackendChange envAllOk "cuda" idleState).state.configInfo =
      some sampleInfo ∧
    (handleBackendChange envFailOverride "cuda" idleState).state.operationStatus =
      ⟨OpType.error, "override boom"⟩ ∧
    (handleBackendChange envFailOverride "cuda" idleState).calls =
      [RemoteCall.setBackendOverride (some "cuda")] ∧
    (handleBackendChange envFailRestart "cuda" idleState).state.operationStatus =
      ⟨OpType.error, "restart boom"⟩ ∧
    (handleBackendChange envFailRestart "cuda" idleState).calls =
      [RemoteCall.setBackendOverride (some "cuda"), RemoteCall.restartWithOverrides] := by
  have h1 := C4_change_backend_sequence envAllOk "cuda" idleState
  have h2 := C4_change_backend_sequence envFailOverride "cuda" idleState
  have h3 := C4_change_backend_sequence envFailRestart "cuda" idleState
  exact ⟨(h1.1 rfl rfl).1, (h1.1 rfl rfl).2.1, (h1.1 rfl rfl).2.2.2 sampleInfo rfl,
    (h2.2.1 (some "override boom") rfl).2.1, (h2.2.1 (some "override boom") rfl).2.2,
    (h3.2.2 (some "restart boom") rfl rfl).2.1,
    (h3.2.2 (some "restart boom") rfl rfl).2.2.2⟩

/-- C5: behavior of the code at the failing input.  Starting from a state
with an unsaved edit to model m2, a successful SaveModel("m1") sends only
m1's record yet clears the global `hasUnsavedChanges` flag, losing the
record of m2's pending edit. -/
theorem C5_save_one_clears_global_flag :
    (updateModelConfig "m2" (FieldPatch.gpuLayers 20) idleState).hasUnsavedChanges = true ∧
    (dispatch envAllOk (Intent.saveModel "m1")
        (updateModelConfig "m2" (FieldPatch.gpuLayers 20) idleState)).result =
      DispatchResult.ran ∧
    (dispatch envAllOk (Intent.saveModel "m1")
        (updateModelConfig "m2" (FieldPatch.gpuLayers 20) idleState)).calls =
      [RemoteCall.saveModelConfiguration "m1" model1] ∧
    (dispatch envAllOk (Intent.saveModel "m1")
        (updateModelConfig "m2" (FieldPatch.gpuLayers 20) idleState)).state.operationStatus.type =
      OpType.success ∧
    (dispatch envAllOk (Intent.saveModel "m1")
        (updateModelConfig "m2" (FieldPatch.gpuLayers 20) idleState)).state.hasUnsavedChanges =
      false := by
  exact ⟨rfl, by decide, by decide, by decide, by decide⟩

/-- C6 counterexample: from a state whose model list is non-empty, a
successful info read combined with a failing model read makes the load
succeed but keep the previous non-empty model list, not an empty one. -/
theorem C6_failed_model_read_keeps_old_list :
    (loadConfigurationInfo envModelsFail idleState).1.error = none ∧
    (loadConfigurationInfo envModelsFail idleState).1.modelConfigs = [model1, model2] ∧
    [model1, model2] ≠ ([] : List ModelConfig) := by
  exact ⟨by decide, by decide, by decide⟩

/-- C6 amended: the load fails (sets `error`) exactly when the mandatory
info read fails; when the info read succeeds but the model read fails, the
load succeeds and leaves the model list unchanged — hence empty on a first
load, where the initial list is empty. -/
theorem C6_load_partial_tolerance (env : RemoteEnv) (s : PanelState) :
    ((loadConfigurationInfo env s).1.error = none ↔
      ∃ info, env.infoRes = InfoRes.ok info) ∧
    (∀ m, env.modelsRes = ModelsRes.fail m →
      (loadConfigurationInfo env s).1.modelConfigs = s.modelConfigs) ∧
    (∀ info m, env.infoRes = InfoRes.ok info → env.modelsRes = ModelsRes.fail m →
      s.modelConfigs = [] → (loadConfigurationInfo env s).1.modelConfigs = []) := by
  have h2 : ∀ m, env.modelsRes = ModelsRes.fail m →
      (loadConfigurationInfo env s).1.modelConfigs = s.modelConfigs := by
    intro m hm
    cases h : env.infoRes with
    | ok info =>
      simp only [loadConfigurationInfo, h]
      rw [loadModels_fail_modelConfigs env _ m hm]
      simp
    | fail m2 => simp [loadConfigurationInfo, h]
  refine ⟨?_, h2, fun info m _ hm hnil => (h2 m hm).trans hnil⟩
  cases h : env.infoRes with
  | ok info => simp [loadConfigurationInfo, h]
  | fail m =>
    simp only [loadConfigurationInfo, h]
    constructor
    · intro hc
      exact absurd hc (by simp)
    · rintro ⟨info, hinfo⟩
      exact absurd hinfo (by simp)

/-- C6 witness: concrete runs exercising the info-success/model-failure case
from both the initial (empty-list) state and with the failure equivalence. -/
theorem C6_load_partial_tolerance_witness :
    ((loadConfigurationInfo envModelsFail initialState).1.error = none ↔
      ∃ info, envModelsFail.infoRes = InfoRes.ok info) ∧
    (loadConfigurationInfo envModelsFail initialState).1.modelConfigs =
      initialState.modelConfigs ∧
    (loadConfigurationInfo envModelsFail initialState).1.modelConfigs = [] := by
  have h := C6_load_partial_tolerance envModelsFail initialState
  exact ⟨h.1, h.2.1 (some "models boom") rfl,
    h.2.2 sampleInfo (some "models boom") rfl rfl rfl⟩

/-- C7 counterexample: patching an unknown model name is not a rejected
no-op: `updateModelConfig` has no failure outcome, leaves the registry
contents unchanged, and still flips `hasUnsavedChanges` from false to
true. -/
theorem C7_unknown_name_sets_dirty_flag :
    idleState.hasUnsavedChanges = false ∧
    (updateModelConfig "nope" (FieldPatch.gpuLayers 5) idleState).modelConfigs =
      idleState.modelConfigs ∧
    (updateModelConfig "nope" (FieldPatch.gpuLayers 5) idleState).hasUnsavedChanges =
      true := by
  exact ⟨rfl, by decide, rfl⟩

/-- C7 amended: a patch whose name matches no model leaves the registry
contents unmodified and returns no error signal, but still sets the global
`hasUnsavedChanges` flag, exactly as a matching patch would. -/
theorem C7_unknown_name_patch (s : PanelState) (modelName : String) (p : FieldPatch)
    (h : ∀ m ∈ s.modelConfigs, m.name ≠ modelName) :
    (updateModelConfig modelName p s).modelConfigs = s.modelConfigs ∧
    (updateModelConfig modelName p s).hasUnsavedChanges = true := by
  refine ⟨?_, rfl⟩
  show s.modelConfigs.map _ = s.modelConfigs
  have step : ∀ l : List ModelConfig, (∀ m ∈ l, m.name ≠ modelName) →
      l.map (fun m => if m.name == modelName then applyPatch p m else m) = l := by
    intro l hl
    induction l with
    | nil => rfl
    | cons a t ih =>
      have ha : a.name ≠ modelName := hl a (List.mem_cons_self a t)
      have ih2 := ih (fun m hm => hl m (List.mem_cons_of_mem a hm))
      simp [ha]
      simpa using ih2
  exact step s.modelConfigs h

/-- C7 witness: a concrete unknown-name patch leaves the concrete registry
unmodified while setting the dirty flag. -/
theorem C7_unknown_name_patch_witness :
    (updateModelConfig "m3" (FieldPatch.threads 8) idleState).modelConfigs =
      idleState.modelConfigs ∧
    (updateModelConfig "m3" (FieldPatch.threads 8) idleState).hasUnsavedChanges =
      true :=
  C7_unknown_name_patch idleState "m3" (FieldPatch.threads 8) (by decide)

/-- The change detector the claim describes: compare the canonical
serializations of the two documents.  Modelled from the spec's words for the
refinement comparison; the source's detector is `handleJsonChange`. -/
def canonDirty (original current : Json) : Bool :=
  stringify2 original != stringify2 current

/-- C8 counterexample: the compact rendering of the sample document is a
re-serialization of the very same document, so the claimed canonical
comparison reports clean (`canonDirty` is false), yet the code's verbatim
string comparison reports the buffer dirty. -/
theorem C8_reformatting_reported_dirty :
    canonDirty sampleDoc sampleDoc = false ∧
    stringifyCompact sampleDoc ≠ stringify2 sampleDoc ∧
    (handleJsonChange (stringifyCompact sampleDoc) idleState).hasUnsavedChanges =
      true := by
  exact ⟨by decide, by decide, by decide⟩

/-- C8 amended: the detector is exact string equality between the edit text
and the 2-space pretty-printed serialization of the snapshot document: the
verbatim serialization is clean, and any textual difference — including a
pure reformatting of the same document — is dirty. -/
theorem C8_dirty_is_string_equality (s : PanelState) (ci : ConfigurationInfo)
    (doc : Json) (text : String) (h1 : s.configInfo = some ci)
    (h2 : ci.configuration = some doc) :
    (handleJsonChange text s).hasUnsavedChanges = (text != stringify2 doc) ∧
    (handleJsonChange (stringify2 doc) s).hasUnsavedChanges = false := by
  have ho : originalConfigText s = stringify2 doc := by
    simp [originalConfigText, h1, h2]
  constructor
  · cases hj : jsonValid text <;> simp [handleJsonChange, hj, ho]
  · cases hj : jsonValid (stringify2 doc) <;> simp [handleJsonChange, hj, ho]

/-- C8 witness: the string-equality characterization at a concrete state,
document and text. -/
theorem C8_dirty_is_string_equality_witness :
    (handleJsonChange "x" idleState).hasUnsavedChanges =
      ("x" != stringify2 sampleDoc) ∧
    (handleJsonChange (stringify2 sampleDoc) idleState).hasUnsavedChanges = false :=
  C8_dirty_is_string_equality idleState sampleInfo sampleDoc "x" rfl rfl

/-- C9: any patch on an existing model sets `hasUnsavedChanges` immediately
(whatever the patched value, including the current one); after a successful
SaveAllModels clears the flag, re-applying the same patch sets it true
again. -/
theorem C9_patch_marks_dirty (env : RemoteEnv) (s : PanelState)
    (modelName : String) (p : FieldPatch)
    (_hex : ∃ m ∈ s.modelConfigs, m.name = modelName)
    (hidle : isOperationInProgress s = false)
    (hok : env.saveAllRes = CallRes.ok) :
    (updateModelConfig modelName p s).hasUnsavedChanges = true ∧
    (dispatch env Intent.saveAllModels
        (updateModelConfig modelName p s)).state.hasUnsavedChanges = false ∧
    (updateModelConfig modelName p
        (dispatch env Intent.saveAllModels
          (updateModelConfig modelName p s)).state).hasUnsavedChanges = true := by
  have hop : isOperationInProgress (updateModelConfig modelName p s) = false := by
    simpa [isOperationInProgress, updateModelConfig] using hidle
  have hgate : intentDisabled Intent.saveAllModels
      (updateModelConfig modelName p s) = false := by
    simp only [intentDisabled]
    rw [hop]
    simp [updateModelConfig]
  refine ⟨rfl, ?_, rfl⟩
  simp [dispatch, hgate, runIntent, handleSaveAllModelConfigurations, hok]

/-- C9 witness: the scenario at two concrete models, patching m1's GPU layers
to 20, saving all models successfully, then re-applying the same patch. -/
theorem C9_patch_marks_dirty_witness :
    (updateModelConfig "m1" (FieldPatch.gpuLayers 20) idleState).hasUnsavedChanges =
      true ∧
    (dispatch envAllOk Intent.saveAllModels
        (updateModelConfig "m1" (FieldPatch.gpuLayers 20) idleState)).state.hasUnsavedChanges =
      false ∧
    (updateModelConfig "m1" (FieldPatch.gpuLayers 20)
        (dispatch envAllOk Intent.saveAllModels
          (updateModelConfig "m1" (FieldPatch.gpuLayers 20) idleState)).state).hasUnsavedChanges =
      true :=
  C9_patch_marks_dirty envAllOk idleState "m1" (FieldPatch.gpuLayers 20)
    ⟨model1, by decide, rfl⟩ rfl rfl

/-- Whether the patch writes `configuredContextSize`. -/
def touchesCCS : FieldPatch → Bool
  | FieldPatch.configuredContextSize _ => true
  | _ => false

/-- Whether the patch writes `gpuLayers`. -/
def touchesGpuLayers : FieldPatch → Bool
  | FieldPatch.gpuLayers _ => true
  | _ => false

/-- Whether the patch writes `batchSize`. -/
def touchesBatchSize : FieldPatch → Bool
  | FieldPatch.batchSize _ => true
  | _ => false

/-- Whether the patch writes `threads`. -/
def touchesThreads : FieldPatch → Bool
  | FieldPatch.threads _ => true
  | _ => false

/-- Whether the patch writes `ttl`. -/
def touchesTtl : FieldPatch → Bool
  | FieldPatch.ttl _ => true
  | _ => false

/-- Whether the patch writes `flashAttention`. -/
def touchesFlashAttention : FieldPatch → Bool
  | FieldPatch.flashAttention _ => true
  | _ => false

/-- Whether the patch writes `memoryLock`. -/
def touchesMemoryLock : FieldPatch → Bool
  | FieldPatch.memoryLock _ => true
  | _ => false

/-- Every field of `m2` other than the one the patch writes agrees with
`m1`. -/
def otherFieldsEq (p : FieldPatch) (m1 m2 : ModelConfig) : Prop :=
  m2.name = m1.name ∧ m2.path = m1.path ∧ m2.port = m1.port ∧
  m2.isEmbedding = m1.isEmbedding ∧ m2.nativeContextSize = m1.nativeContextSize ∧
  m2.ubatchSize = m1.ubatchSize ∧ m2.status = m1.status ∧
  (touchesCCS p = false → m2.configuredContextSize = m1.configuredContextSize) ∧
  (touchesGpuLayers p = false → m2.gpuLayers = m1.gpuLayers) ∧
  (touchesBatchSize p = false → m2.batchSize = m1.batchSize) ∧
  (touchesThreads p = false → m2.threads = m1.threads) ∧
  (touchesTtl p = false → m2.ttl = m1.ttl) ∧
  (touchesFlashAttention p = false → m2.flashAttention = m1.flashAttention) ∧
  (touchesMemoryLock p = false → m2.memoryLock = m1.memoryLock)

/-- C10: a patch changes nothing but the named model's patched field and the
dirty flag — models with a different name are kept verbatim, the matched
model keeps every other field, and every other piece of orchestrator state
(phase, snapshot, JSON edit buffer, selection, flags) is untouched. -/
theorem C10_patch_frame (s : PanelState) (modelName : String) (p : FieldPatch) :
    (updateModelConfig modelName p s).modelConfigs.length = s.modelConfigs.length ∧
    (∀ i (h : i < s.modelConfigs.length)
        (h2 : i < (updateModelConfig modelName p s).modelConfigs.length),
      ((s.modelConfigs.get ⟨i, h⟩).name ≠ modelName →
        (updateModelConfig modelName p s).modelConfigs.get ⟨i, h2⟩ =
          s.modelConfigs.get ⟨i, h⟩) ∧
      ((s.modelConfigs.get ⟨i, h⟩).name = modelName →
        (updateModelConfig modelName p s).modelConfigs.get ⟨i, h2⟩ =
          applyPatch p (s.modelConfigs.get ⟨i, h⟩))) ∧
    (∀ m : ModelConfig, otherFieldsEq p m (applyPatch p m)) ∧
    (updateModelConfig modelName p s).operationStatus = s.operationStatus ∧
    (updateModelConfig modelName p s).configInfo = s.configInfo ∧
    (updateModelConfig modelName p s).jsonConfig = s.jsonConfig ∧
    (updateModelConfig modelName p s).jsonError = s.jsonError ∧
    (updateModelConfig modelName p s).selectedBackend = s.selectedBackend ∧
    (updateModelConfig modelName p s).actualBackend = s.actualBackend ∧
    (updateModelConfig modelName p s).loading = s.loading ∧
    (updateModelConfig modelName p s).error = s.error ∧
    (updateModelConfig modelName p s).showJsonEditor = s.showJsonEditor ∧
    (updateModelConfig modelName p s).selectedModelId = s.selectedModelId := by
  refine ⟨by simp [updateModelConfig], ?_, ?_, rfl, rfl, rfl, rfl, rfl, rfl, rfl,
    rfl, rfl, rfl⟩
  · intro i h h2
    constructor
    · intro hne
      have hne2 : ¬ s.modelConfigs[i].name = modelName := by
        simpa [List.get_eq_getElem] using hne
      simp [updateModelConfig, List.get_eq_getElem, List.getElem_map, hne2]
    · intro heq
      have heq2 : s.modelConfigs[i].name = modelName := by
        simpa [List.get_eq_getElem] using heq
      simp [updateModelConfig, List.get_eq_getElem, List.getElem_map, heq2]
  · intro m
    cases p <;>
      simp [applyPatch, otherFieldsEq, touchesCCS, touchesGpuLayers,
        touchesBatchSize, touchesThreads, touchesTtl, touchesFlashAttention,
        touchesMemoryLock]

/-- C10 witness: the frame at a concrete patch of m2's timeout — m1 is kept
verbatim, m2 changes only the patched field, and the edit buffer is
untouched. -/
theorem C10_patch_frame_witness :
    (updateModelConfig "m2" (FieldPatch.ttl 600) idleState).modelConfigs.length =
      idleState.modelConfigs.length ∧
    (updateModelConfig "m2" (FieldPatch.ttl 600) idleState).modelConfigs.get
        ⟨0, by decide⟩ = idleState.modelConfigs.get ⟨0, by decide⟩ ∧
    (updateModelConfig "m2" (FieldPatch.ttl 600) idleState).modelConfigs.get
        ⟨1, by decide⟩ =
      applyPatch (FieldPatch.ttl 600) (idleState.modelConfigs.get ⟨1, by decide⟩) ∧
    otherFieldsEq (FieldPatch.ttl 600) model2
      (applyPatch (FieldPatch.ttl 600) model2) ∧
    (updateModelConfig "m2" (FieldPatch.ttl 600) idleState).jsonConfig =
      idleState.jsonConfig := by
  have h := C10_patch_frame idleState "m2" (FieldPatch.ttl 600)
  exact ⟨h.1,
    (h.2.1 0 (by decide) (by decide)).1 (by decide),
    (h.2.1 1 (by decide) (by decide)).2 (by decide),
    h.2.2.1 model2,
    h.2.2.2.2.2.1⟩

end Clara
